import Mathlib

/-
Verification of the relationship-mutation schema augmentation pass
(src/augment/types/relationship/mutation.js of neo4j-graphql-js).

The pass is embedded shallowly: JavaScript objects become Lean structures,
in-place registry mutation becomes explicit state passing, and the one
failure mode (capitalizing the first character of an empty field name
throws a TypeError) is made explicit with Option.  Collaborator modules
that are not part of the shown source (the AST node constructors, the
directive helpers, the query-side field builder, the configuration
predicates) are modelled from the specification of their interfaces.
-/

/-- Modelled from the spec: a Name AST node, as produced by the AST-builder
collaborator buildName (src/augment/ast.js, not included under src/). -/
structure Name where
  value : String
deriving DecidableEq, Repr

/-- Modelled from the spec: a named type reference; the boolean records the
TypeWrappers.NON_NULL_NAMED_TYPE wrapper used at every call site in this pass. -/
structure NamedType where
  name : String
  nonNullNamedType : Bool
deriving DecidableEq, Repr

/-- Modelled from the spec: one scope requirement carried by an authorization
directive, tagging an endpoint type name with a mutation verb. -/
structure AuthScope where
  typeName : String
  mutation : String
deriving DecidableEq, Repr

/-- Modelled from the spec: directive AST nodes.  The three constructed kinds
(mutation-metadata, relation-metadata, scope authorization) keep their bound
parameters; user-declared directives on relationship property fields (such as
the computed-value cypher directive) are duck-typed and carried by name. -/
inductive Directive where
  | mutationMeta (relationshipName fromType toType : String)
  | relation (relationshipName fromType toType : String)
  | hasScope (scopes : List AuthScope)
  | declared (name : String)
deriving DecidableEq, Repr

/-- Modelled from the spec: the name under which a directive is looked up
by the duck-typed name matching of the directive collaborator. -/
def Directive.directiveName : Directive → String
  | .mutationMeta _ _ _ => "MutationMeta"
  | .relation _ _ _ => "relation"
  | .hasScope _ => "hasScope"
  | .declared n => n

/-- Modelled from the spec: names of the directive definitions consulted by
this pass (DirectiveDefinition.CYPHER). -/
def DirectiveDefinition.CYPHER : String := "cypher"

/-- Modelled from the spec: DirectiveDefinition.HAS_SCOPE. -/
def DirectiveDefinition.HAS_SCOPE : String := "hasScope"

/-- Modelled from the spec: an input value definition AST node, as produced by
buildInputValue — only a name and a named type. -/
structure InputValueDefinition where
  name : Name
  type : NamedType
deriving DecidableEq, Repr

/-- Modelled from the spec: a field definition AST node, as produced by
buildField; relationship property-output fields of the descriptor have the
same shape (name, type, arguments, directives). -/
structure FieldDefinition where
  name : Name
  type : NamedType
  arguments : List InputValueDefinition
  directives : List Directive
deriving DecidableEq, Repr

/-- Modelled from the spec: a relationship property input value of the
descriptor (propertyInputValues entries): a declared name, a declared type and
the directives of its definition. -/
structure PropertyInputValue where
  name : String
  type : NamedType
  directives : List Directive
deriving DecidableEq, Repr

/-- Modelled from the spec: a synthesized type definition held by the
generated-type map — an object type or an input object type. -/
inductive TypeDef where
  | objectType (name : Name) (fields : List FieldDefinition) (directives : List Directive)
  | inputObjectType (name : Name) (fields : List InputValueDefinition)
deriving DecidableEq, Repr

/-- Directive list of a synthesized type definition. -/
def TypeDef.typeDirectives : TypeDef → List Directive
  | .objectType _ _ ds => ds
  | .inputObjectType _ _ => []

/-- Field list of a synthesized object type definition. -/
def TypeDef.objectFields : TypeDef → List FieldDefinition
  | .objectType _ fs _ => fs
  | .inputObjectType _ _ => []

/-- Modelled from the spec: buildName, a pure AST constructor. -/
def buildName (name : String) : Name := ⟨name⟩

/-- Modelled from the spec: buildNamedType, a pure AST constructor; its input
already carries the name and wrappers, so it is the identity on that data. -/
def buildNamedType (t : NamedType) : NamedType := t

/-- Modelled from the spec: buildInputValue, a pure AST constructor. -/
def buildInputValue (name : Name) (type : NamedType) : InputValueDefinition :=
  ⟨name, type⟩

/-- Modelled from the spec: buildField, a pure AST constructor. -/
def buildField (name : Name) (type : NamedType) (args : List InputValueDefinition)
    (directives : List Directive) : FieldDefinition :=
  ⟨name, type, args, directives⟩

/-- Modelled from the spec: buildObjectType, a pure AST constructor. -/
def buildObjectType (name : Name) (fields : List FieldDefinition)
    (directives : List Directive) : TypeDef :=
  .objectType name fields directives

/-- Modelled from the spec: buildInputObjectType, a pure AST constructor. -/
def buildInputObjectType (name : Name) (fields : List InputValueDefinition) : TypeDef :=
  .inputObjectType name fields

/-- Modelled from the spec: buildMutationMetaDirective(relationshipName,
fromType, toType), a pure directive constructor. -/
def buildMutationMetaDirective (relationshipName fromType toType : String) : Directive :=
  .mutationMeta relationshipName fromType toType

/-- Modelled from the spec: buildRelationDirective(relationshipName, fromType,
toType), a pure directive constructor. -/
def buildRelationDirective (relationshipName fromType toType : String) : Directive :=
  .relation relationshipName fromType toType

/-- Modelled from the spec: buildAuthScopeDirective(scopes), a pure directive
constructor. -/
def buildAuthScopeDirective (scopes : List AuthScope) : Directive :=
  .hasScope scopes

/-- Modelled from the spec: getDirective(directives, name) — the first
directive of the list matching the given name, by duck-typed name lookup. -/
def getDirective (directives : List Directive) (name : String) : Option Directive :=
  directives.find? (fun d => d.directiveName == name)

/-- Modelled from the spec: isCypherField(directives) — whether the directive
list carries the computed-value (cypher) directive. -/
def isCypherField (directives : List Directive) : Bool :=
  (getDirective directives DirectiveDefinition.CYPHER).isSome

/-- Modelled from the spec: getFieldDefinition(fields, name) — the first field
definition of the list whose name value matches, used as the idempotence
guard over the Mutation operation's field list. -/
def getFieldDefinition (fields : List FieldDefinition) (name : String) :
    Option FieldDefinition :=
  fields.find? (fun f => f.name.value == name)

/-- Modelled from the spec: the configuration value, which this pass consults
only through useAuthDirective (for HAS_SCOPE) and
shouldAugmentRelationshipField (the external applicability predicate over an
operation kind and the two endpoint type names). -/
structure Config where
  hasScopeAuthorization : Bool
  shouldAugmentRelationship : String → String → String → Bool

/-- Modelled from the spec: useAuthDirective(config, directiveName) — whether
the configuration enables the given authorization directive; this pass only
queries HAS_SCOPE, carried by the hasScopeAuthorization flag. -/
def useAuthDirective (config : Config) (_directiveName : String) : Bool :=
  config.hasScopeAuthorization

/-- Modelled from the spec: shouldAugmentRelationshipField(config,
operationTypeName, fromType, toType), the external applicability predicate. -/
def shouldAugmentRelationshipField (config : Config)
    (operationTypeName fromType toType : String) : Bool :=
  config.shouldAugmentRelationship operationTypeName fromType toType

/-- Modelled from the spec: the fixed direction key RelationshipDirectionField.FROM. -/
def RelationshipDirectionField.FROM : String := "from"

/-- Modelled from the spec: the fixed direction key RelationshipDirectionField.TO. -/
def RelationshipDirectionField.TO : String := "to"

/-- Modelled from the spec: the operation kind key OperationType.MUTATION. -/
def OperationType.MUTATION : String := "Mutation"

/-- Modelled from the spec: buildNodeOutputFields(fromType, toType) — the
query-side field builder supplying the endpoint node output fields of a node
selection (src/augment/types/relationship/query.js, not included under src/):
one output field per relationship direction, typed by the endpoint type. -/
def buildNodeOutputFields (fromType toType : String) : List FieldDefinition :=
  [ buildField (buildName RelationshipDirectionField.FROM)
      (buildNamedType ⟨fromType, false⟩) [] [],
    buildField (buildName RelationshipDirectionField.TO)
      (buildNamedType ⟨toType, false⟩) [] [] ]

/-- The Mutation (or Query, or Subscription) root operation type: the pass
only ever reads and extends its field list. -/
structure OperationRootType where
  fields : List FieldDefinition
deriving DecidableEq, Repr

/-- The operation-type map, keyed by operation kind; an absent entry models a
schema that declares no root of that kind. -/
structure OperationTypeMap where
  query : Option OperationRootType
  mutation : Option OperationRootType
  subscription : Option OperationRootType
deriving DecidableEq, Repr

/-- The generated-type map: generated type name to synthesized definition. -/
abbrev GeneratedTypeMap := List (String × TypeDef)

/-- The original, user-authored type registry, threaded through untouched. -/
abbrev TypeDefinitionMap := List (String × TypeDef)

/-- JavaScript object property assignment on a string-keyed map: overwrite the
entry if the key exists, otherwise append it. -/
def setEntry {α : Type} : List (String × α) → String → α → List (String × α)
  | [], key, v => [(key, v)]
  | (k, w) :: rest, key, v =>
    if k = key then (key, v) :: rest else (k, w) :: setEntry rest key v

/-- JavaScript object property read on a string-keyed map. -/
def getEntry {α : Type} : List (String × α) → String → Option α
  | [], _ => none
  | (k, w) :: rest, key => if k = key then some w else getEntry rest key

/-- The field list of the Mutation entry of an operation-type map (the pass
only reaches it after checking the entry exists). -/
def mutationFields (operationTypeMap : OperationTypeMap) : List FieldDefinition :=
  match operationTypeMap.mutation with
  | some mutationType => mutationType.fields
  | none => []

/-- RelationshipMutation.CREATE, source label "Add". -/
def RelationshipMutation.CREATE : String := "Add"

/-- RelationshipMutation.DELETE, source label "Remove". -/
def RelationshipMutation.DELETE : String := "Remove"

/-- Object.values(RelationshipMutation): the fixed action enumeration in
insertion order. -/
def relationshipMutationValues : List String :=
  [RelationshipMutation.CREATE, RelationshipMutation.DELETE]

/-- One directed use of a relationship type as a field on a node type, as
received by augmentRelationshipMutationAPI. -/
structure RelationshipDescriptor where
  typeName : String
  fieldName : String
  outputType : String
  fromType : String
  toType : String
  relationshipName : String
  propertyInputValues : List PropertyInputValue
  propertyOutputFields : List FieldDefinition
deriving Repr

/-- buildRelationshipMutationName: the action label, then the type name, then
the field name with its first character capitalized.  JavaScript evaluates
fieldName[0].toUpperCase(), which throws a TypeError when fieldName is empty;
the failure is modelled as none. -/
def buildRelationshipMutationName (mutationAction typeName fieldName : String) :
    Option String :=
  match fieldName.data with
  | [] => none
  | c :: rest => some (mutationAction ++ typeName ++ String.mk (c.toUpper :: rest))

/-- buildNodeSelectionArguments: the two required endpoint-selection
arguments, named by the fixed direction keys and typed by the non-null
generated node-input types. -/
def buildNodeSelectionArguments (fromType toType : String) : List InputValueDefinition :=
  [ buildInputValue (buildName RelationshipDirectionField.FROM)
      (buildNamedType ⟨"_" ++ fromType ++ "Input", true⟩),
    buildInputValue (buildName RelationshipDirectionField.TO)
      (buildNamedType ⟨"_" ++ toType ++ "Input", true⟩) ]

/-- buildRelationshipPropertyInputArgument: the required data argument, typed
by the non-null generated relationship property input type. -/
def buildRelationshipPropertyInputArgument (outputType : String) : InputValueDefinition :=
  buildInputValue (buildName "data")
    (buildNamedType ⟨"_" ++ outputType ++ "Input", true⟩)

/-- buildRelationshipMutationArguments: endpoint selection arguments, plus the
data argument for CREATE when the relationship has property output fields. -/
def buildRelationshipMutationArguments (mutationAction fromType toType : String)
    (propertyOutputFields : List FieldDefinition) (outputType : String) :
    List InputValueDefinition :=
  let fieldArguments := buildNodeSelectionArguments fromType toType
  if mutationAction == RelationshipMutation.CREATE
      && propertyOutputFields.length != 0 then
    fieldArguments ++ [buildRelationshipPropertyInputArgument outputType]
  else
    fieldArguments

/-- buildRelationshipMutationDirectives: the unconditional mutation-metadata
directive, plus one scope-authorization directive when configuration enables
it and the action maps to a mutation verb. -/
def buildRelationshipMutationDirectives (mutationAction relationshipName fromType toType : String)
    (_propertyOutputFields : List FieldDefinition) (config : Config) : List Directive :=
  let mutationMetaDirective := buildMutationMetaDirective relationshipName fromType toType
  let directives := [mutationMetaDirective]
  if useAuthDirective config DirectiveDefinition.HAS_SCOPE then
    let authAction :=
      if mutationAction == RelationshipMutation.CREATE then "Create"
      else if mutationAction == RelationshipMutation.DELETE then "Delete"
      else ""
    if authAction != "" then
      directives ++
        [ buildAuthScopeDirective
            [ ⟨fromType, authAction⟩,
              ⟨toType, authAction⟩ ] ]
    else directives
  else directives

/-- buildRelationshipMutationPropertyInputType: for CREATE with at least one
declared property input value, writes the input object type named
_<outputType>Input whose fields are the non-computed property inputs, each
reduced to its declared name and named type. -/
def buildRelationshipMutationPropertyInputType (mutationAction outputType : String)
    (propertyInputValues : List PropertyInputValue)
    (generatedTypeMap : GeneratedTypeMap) : GeneratedTypeMap :=
  if mutationAction == RelationshipMutation.CREATE
      && propertyInputValues.length != 0 then
    let nonComputedPropertyInputFields := propertyInputValues.filter (fun field =>
      !(getDirective field.directives DirectiveDefinition.CYPHER).isSome)
    let inputTypeName := "_" ++ outputType ++ "Input"
    setEntry generatedTypeMap inputTypeName
      (buildInputObjectType (buildName inputTypeName)
        (nonComputedPropertyInputFields.map (fun inputValue =>
          buildInputValue (buildName inputValue.name) (buildNamedType inputValue.type))))
  else
    generatedTypeMap

/-- buildRelationshipMutationOutputType: for CREATE and DELETE, writes the
payload object type: the endpoint node output fields, then (CREATE only) the
property output fields with arguments stripped from computed fields, carrying
the single relation-metadata directive. -/
def buildRelationshipMutationOutputType (mutationAction mutationOutputType : String)
    (propertyOutputFields : List FieldDefinition)
    (relationshipName fromType toType : String)
    (generatedTypeMap : GeneratedTypeMap) : GeneratedTypeMap :=
  if mutationAction == RelationshipMutation.CREATE
      || mutationAction == RelationshipMutation.DELETE then
    let relationTypeDirective := buildRelationDirective relationshipName fromType toType
    let fields := buildNodeOutputFields fromType toType
    let fields :=
      if mutationAction == RelationshipMutation.CREATE then
        fields ++ propertyOutputFields.map (fun field =>
          if isCypherField field.directives then
            { field with arguments := [] }
          else field)
      else fields
    setEntry generatedTypeMap mutationOutputType
      (buildObjectType (buildName mutationOutputType) fields [relationTypeDirective])
  else
    generatedTypeMap

/-- buildRelationshipMutationField: appends the assembled mutation field to
the Mutation operation's field list, for CREATE and DELETE only. -/
def buildRelationshipMutationField (mutationAction mutationName relationshipName fromType toType : String)
    (propertyOutputFields : List FieldDefinition)
    (mutationOutputType outputType : String)
    (operationTypeMap : OperationTypeMap) (config : Config) : OperationTypeMap :=
  if mutationAction == RelationshipMutation.CREATE
      || mutationAction == RelationshipMutation.DELETE then
    { operationTypeMap with
      mutation := operationTypeMap.mutation.map (fun mutationType =>
        { mutationType with
          fields := mutationType.fields ++
            [ buildField (buildName mutationName)
                (buildNamedType ⟨mutationOutputType, false⟩)
                (buildRelationshipMutationArguments mutationAction fromType toType
                  propertyOutputFields outputType)
                (buildRelationshipMutationDirectives mutationAction relationshipName
                  fromType toType propertyOutputFields config) ] }) }
  else
    operationTypeMap

/-- buildRelationshipMutationAPI: for one action, builds the mutation field
and then the generated property-input and payload types. -/
def buildRelationshipMutationAPI (mutationAction mutationName relationshipName fromType toType : String)
    (propertyInputValues : List PropertyInputValue)
    (propertyOutputFields : List FieldDefinition)
    (outputType : String)
    (generatedTypeMap : GeneratedTypeMap) (operationTypeMap : OperationTypeMap)
    (config : Config) : OperationTypeMap × GeneratedTypeMap :=
  let mutationOutputType := "_" ++ mutationName ++ "Payload"
  let operationTypeMap := buildRelationshipMutationField mutationAction mutationName
    relationshipName fromType toType propertyOutputFields mutationOutputType
    outputType operationTypeMap config
  let generatedTypeMap := buildRelationshipMutationPropertyInputType mutationAction
    outputType propertyInputValues generatedTypeMap
  let generatedTypeMap := buildRelationshipMutationOutputType mutationAction
    mutationOutputType propertyOutputFields relationshipName fromType toType
    generatedTypeMap
  (operationTypeMap, generatedTypeMap)

/-- One iteration of the orchestrator's loop over the action enumeration:
compute the mutation name (propagating its failure), skip under the
idempotence guard, otherwise synthesize. -/
def relationshipMutationStep (d : RelationshipDescriptor) (config : Config)
    (maps : OperationTypeMap × GeneratedTypeMap) (mutationAction : String) :
    Option (OperationTypeMap × GeneratedTypeMap) :=
  match buildRelationshipMutationName mutationAction d.typeName d.fieldName with
  | none => none
  | some mutationName =>
    if (getFieldDefinition (mutationFields maps.1) mutationName).isSome then
      some maps
    else
      some (buildRelationshipMutationAPI mutationAction mutationName
        d.relationshipName d.fromType d.toType d.propertyInputValues
        d.propertyOutputFields d.outputType maps.2 maps.1 config)

/-- augmentRelationshipMutationAPI: the orchestrator.  Skips entirely when the
schema declares no Mutation root or the applicability predicate is false;
otherwise folds the per-action step over the fixed enumeration.  A none result
models the uncaught TypeError thrown on a malformed descriptor. -/
def augmentRelationshipMutationAPI (d : RelationshipDescriptor)
    (typeDefinitionMap : TypeDefinitionMap) (generatedTypeMap : GeneratedTypeMap)
    (operationTypeMap : OperationTypeMap) (config : Config) :
    Option (TypeDefinitionMap × GeneratedTypeMap × OperationTypeMap) :=
  -- the source computes OperationType.MUTATION.toLowerCase(); the constant result
  -- is inlined because String.toLower on a literal does not reduce in the kernel
  let mutationTypeNameLower := "mutation"
  if operationTypeMap.mutation.isSome
      && shouldAugmentRelationshipField config mutationTypeNameLower
           d.fromType d.toType then
    match relationshipMutationValues.foldlM (relationshipMutationStep d config)
        (operationTypeMap, generatedTypeMap) with
    | none => none
    | some (operationTypeMap', generatedTypeMap') =>
      some (typeDefinitionMap, generatedTypeMap', operationTypeMap')
  else
    some (typeDefinitionMap, generatedTypeMap, operationTypeMap)

/-
Helper lemmas about the map and lookup operations of the embedding.
-/

theorem getEntry_setEntry_self {α : Type} (m : List (String × α)) (k : String) (v : α) :
    getEntry (setEntry m k v) k = some v := by
  induction m with
  | nil => simp [setEntry, getEntry]
  | cons hd tl ih =>
    obtain ⟨k', w⟩ := hd
    by_cases h : k' = k
    · simp [setEntry, getEntry, h]
    · simp [setEntry, getEntry, h, ih]

theorem getEntry_setEntry_ne {α : Type} (m : List (String × α)) (k k' : String) (v : α)
    (h : k ≠ k') : getEntry (setEntry m k v) k' = getEntry m k' := by
  induction m with
  | nil => simp [setEntry, getEntry, h]
  | cons hd tl ih =>
    obtain ⟨k'', w⟩ := hd
    by_cases h' : k'' = k
    · simp [setEntry, getEntry, h', h, Ne.symm h]
    · simp [setEntry, getEntry, h', ih]

theorem getFieldDefinition_append (l₁ l₂ : List FieldDefinition) (n : String) :
    getFieldDefinition (l₁ ++ l₂) n =
      (getFieldDefinition l₁ n).or (getFieldDefinition l₂ n) := by
  simp [getFieldDefinition, List.find?_append]

theorem getFieldDefinition_singleton_ne (f : FieldDefinition) (n : String)
    (h : f.name.value ≠ n) : getFieldDefinition [f] n = none := by
  simp [getFieldDefinition, h]

theorem getFieldDefinition_singleton_eq (f : FieldDefinition) (n : String)
    (h : f.name.value = n) : getFieldDefinition [f] n = some f := by
  simp [getFieldDefinition, h]

theorem string_append_payload_ne_input (a b : String) :
    "_" ++ a ++ "Payload" ≠ "_" ++ b ++ "Input" := by
  intro h
  have hd : ("_" ++ a ++ "Payload").data = ("_" ++ b ++ "Input").data :=
    congrArg String.data h
  rw [String.data_append, String.data_append, String.data_append, String.data_append] at hd
  have h1 := congrArg List.getLast? hd
  rw [List.getLast?_append, List.getLast?_append, List.getLast?_append,
    List.getLast?_append] at h1
  simp [show ("Payload" : String).data = ['P', 'a', 'y', 'l', 'o', 'a', 'd'] from rfl,
    show ("Input" : String).data = ['I', 'n', 'p', 'u', 't'] from rfl] at h1

/-- C2: the generated mutation field name is a deterministic pure function of
(mutationAction, typeName, fieldName): the action label, then the type name,
then the field name with its first character capitalized; in particular CREATE
on ("Person", "knows") yields "AddPersonKnows" and DELETE yields
"RemovePersonKnows". -/
theorem buildRelationshipMutationName_formula :
    (∀ (mutationAction typeName : String) (c : Char) (cs : List Char),
      buildRelationshipMutationName mutationAction typeName ⟨c :: cs⟩ =
        some (mutationAction ++ typeName ++ ⟨c.toUpper :: cs⟩)) ∧
    buildRelationshipMutationName RelationshipMutation.CREATE "Person" "knows" =
      some "AddPersonKnows" ∧
    buildRelationshipMutationName RelationshipMutation.DELETE "Person" "knows" =
      some "RemovePersonKnows" := by
  refine ⟨fun a t c cs => rfl, by decide, by decide⟩

/-- C3: the DELETE field's argument list is always exactly (from, to); the
CREATE field's argument list is (from, to) when there are no property output
fields and (from, to, data) otherwise; from and to are typed as the non-null
_<fromType>Input and _<toType>Input. -/
theorem buildRelationshipMutationArguments_shape
    (fromType toType outputType : String)
    (propertyOutputFields : List FieldDefinition) :
    buildRelationshipMutationArguments RelationshipMutation.DELETE fromType toType
        propertyOutputFields outputType =
      [ buildInputValue (buildName "from")
          (buildNamedType ⟨"_" ++ fromType ++ "Input", true⟩),
        buildInputValue (buildName "to")
          (buildNamedType ⟨"_" ++ toType ++ "Input", true⟩) ] ∧
    buildRelationshipMutationArguments RelationshipMutation.CREATE fromType toType
        [] outputType =
      [ buildInputValue (buildName "from")
          (buildNamedType ⟨"_" ++ fromType ++ "Input", true⟩),
        buildInputValue (buildName "to")
          (buildNamedType ⟨"_" ++ toType ++ "Input", true⟩) ] ∧
    (∀ (f : FieldDefinition) (fs : List FieldDefinition),
      buildRelationshipMutationArguments RelationshipMutation.CREATE fromType toType
          (f :: fs) outputType =
        [ buildInputValue (buildName "from")
            (buildNamedType ⟨"_" ++ fromType ++ "Input", true⟩),
          buildInputValue (buildName "to")
            (buildNamedType ⟨"_" ++ toType ++ "Input", true⟩),
          buildInputValue (buildName "data")
            (buildNamedType ⟨"_" ++ outputType ++ "Input", true⟩) ]) := by
  refine ⟨rfl, rfl, fun f fs => rfl⟩

/-- C4: the property-input type _<outputType>Input is written only for CREATE
and only when propertyInputValues is non-empty; its fields are exactly the
property input values without a computed-value (cypher) directive, each
copied through as an input value carrying only the declared name and named
type; DELETE never writes this type. -/
theorem buildRelationshipMutationPropertyInputType_gating
    (outputType : String) (propertyInputValues : List PropertyInputValue)
    (generatedTypeMap : GeneratedTypeMap) :
    buildRelationshipMutationPropertyInputType RelationshipMutation.DELETE outputType
        propertyInputValues generatedTypeMap = generatedTypeMap ∧
    buildRelationshipMutationPropertyInputType RelationshipMutation.CREATE outputType
        [] generatedTypeMap = generatedTypeMap ∧
    (∀ (piv : PropertyInputValue) (pivs : List PropertyInputValue),
      getEntry
          (buildRelationshipMutationPropertyInputType RelationshipMutation.CREATE
            outputType (piv :: pivs) generatedTypeMap)
          ("_" ++ outputType ++ "Input") =
        some (buildInputObjectType (buildName ("_" ++ outputType ++ "Input"))
          (((piv :: pivs).filter (fun field =>
              !(getDirective field.directives DirectiveDefinition.CYPHER).isSome)).map
            (fun inputValue =>
              buildInputValue (buildName inputValue.name)
                (buildNamedType inputValue.type))))) := by
  refine ⟨rfl, rfl, fun piv pivs => ?_⟩
  show getEntry (setEntry generatedTypeMap _ _) _ = _
  rw [getEntry_setEntry_self]

/-- C5: the synthesized payload type _<mutationName>Payload begins with the
endpoint node output fields from buildNodeOutputFields(fromType, toType); for
CREATE the property output fields follow, where a computed (cypher) field has
its field-level arguments replaced by an empty list and any other field
passes through unchanged; the DELETE payload carries no property fields. -/
theorem buildRelationshipMutationOutputType_fields
    (mutationOutputType : String) (propertyOutputFields : List FieldDefinition)
    (relationshipName fromType toType : String)
    (generatedTypeMap : GeneratedTypeMap) :
    getEntry
        (buildRelationshipMutationOutputType RelationshipMutation.CREATE
          mutationOutputType propertyOutputFields relationshipName fromType toType
          generatedTypeMap) mutationOutputType =
      some (buildObjectType (buildName mutationOutputType)
        (buildNodeOutputFields fromType toType ++
          propertyOutputFields.map (fun field =>
            if isCypherField field.directives then { field with arguments := [] }
            else field))
        [buildRelationDirective relationshipName fromType toType]) ∧
    getEntry
        (buildRelationshipMutationOutputType RelationshipMutation.DELETE
          mutationOutputType propertyOutputFields relationshipName fromType toType
          generatedTypeMap) mutationOutputType =
      some (buildObjectType (buildName mutationOutputType)
        (buildNodeOutputFields fromType toType)
        [buildRelationDirective relationshipName fromType toType]) := by
  constructor
  · show getEntry (setEntry generatedTypeMap _ _) _ = _
    rw [getEntry_setEntry_self]
    rfl
  · show getEntry (setEntry generatedTypeMap _ _) _ = _
    rw [getEntry_setEntry_self]
    rfl

/-- C6: every synthesized payload type carries exactly one directive, the
relation-metadata directive constructed from (relationshipName, fromType,
toType) of the originating descriptor. -/
theorem buildRelationshipMutationOutputType_directive_binding
    (mutationOutputType : String) (propertyOutputFields : List FieldDefinition)
    (relationshipName fromType toType : String)
    (generatedTypeMap : GeneratedTypeMap) :
    (∃ td, getEntry
        (buildRelationshipMutationOutputType RelationshipMutation.CREATE
          mutationOutputType propertyOutputFields relationshipName fromType toType
          generatedTypeMap) mutationOutputType = some td ∧
      td.typeDirectives =
        [buildRelationDirective relationshipName fromType toType]) ∧
    (∃ td, getEntry
        (buildRelationshipMutationOutputType RelationshipMutation.DELETE
          mutationOutputType propertyOutputFields relationshipName fromType toType
          generatedTypeMap) mutationOutputType = some td ∧
      td.typeDirectives =
        [buildRelationDirective relationshipName fromType toType]) := by
  constructor
  · refine ⟨buildObjectType (buildName mutationOutputType)
      (buildNodeOutputFields fromType toType ++
        propertyOutputFields.map (fun field =>
          if isCypherField field.directives then { field with arguments := [] }
          else field))
      [buildRelationDirective relationshipName fromType toType], ?_, rfl⟩
    show getEntry (setEntry generatedTypeMap _ _) _ = _
    rw [getEntry_setEntry_self]
    rfl
  · refine ⟨buildObjectType (buildName mutationOutputType)
      (buildNodeOutputFields fromType toType)
      [buildRelationDirective relationshipName fromType toType], ?_, rfl⟩
    show getEntry (setEntry generatedTypeMap _ _) _ = _
    rw [getEntry_setEntry_self]
    rfl

/-- C7: the directive list of every generated mutation field has the
mutation-metadata directive first; with scope authorization enabled exactly
one authorization directive follows, carrying one scope per endpoint type
tagged "Create" for CREATE and "Delete" for DELETE; with it disabled the list
is the metadata directive alone. -/
theorem buildRelationshipMutationDirectives_auth
    (relationshipName fromType toType : String)
    (propertyOutputFields : List FieldDefinition) (config : Config) :
    buildRelationshipMutationDirectives RelationshipMutation.CREATE relationshipName
        fromType toType propertyOutputFields config =
      (if config.hasScopeAuthorization then
        [ buildMutationMetaDirective relationshipName fromType toType,
          buildAuthScopeDirective [⟨fromType, "Create"⟩, ⟨toType, "Create"⟩] ]
      else [buildMutationMetaDirective relationshipName fromType toType]) ∧
    buildRelationshipMutationDirectives RelationshipMutation.DELETE relationshipName
        fromType toType propertyOutputFields config =
      (if config.hasScopeAuthorization then
        [ buildMutationMetaDirective relationshipName fromType toType,
          buildAuthScopeDirective [⟨fromType, "Delete"⟩, ⟨toType, "Delete"⟩] ]
      else [buildMutationMetaDirective relationshipName fromType toType]) := by
  cases h : config.hasScopeAuthorization <;>
    simp [buildRelationshipMutationDirectives, useAuthDirective, h,
      RelationshipMutation.CREATE, RelationshipMutation.DELETE]

/-
Characterization of the orchestrator's loop.
-/

theorem relationshipMutationStep_fresh (d : RelationshipDescriptor) (config : Config)
    (otm : OperationTypeMap) (gtm : GeneratedTypeMap) (a n : String)
    (hn : buildRelationshipMutationName a d.typeName d.fieldName = some n)
    (habsent : getFieldDefinition (mutationFields otm) n = none) :
    relationshipMutationStep d config (otm, gtm) a =
      some (buildRelationshipMutationAPI a n d.relationshipName d.fromType d.toType
        d.propertyInputValues d.propertyOutputFields d.outputType gtm otm config) := by
  simp [relationshipMutationStep, hn, habsent]

theorem relationshipMutationStep_skip (d : RelationshipDescriptor) (config : Config)
    (otm : OperationTypeMap) (gtm : GeneratedTypeMap) (a n : String)
    (hn : buildRelationshipMutationName a d.typeName d.fieldName = some n)
    (hpresent : (getFieldDefinition (mutationFields otm) n).isSome = true) :
    relationshipMutationStep d config (otm, gtm) a = some (otm, gtm) := by
  simp [relationshipMutationStep, hn, hpresent]

theorem buildRelationshipMutationField_add (n rn ft tt : String)
    (pofs : List FieldDefinition) (mot ot : String)
    (q s : Option OperationRootType) (mt : OperationRootType) (config : Config) :
    buildRelationshipMutationField RelationshipMutation.CREATE n rn ft tt pofs mot ot
        ⟨q, some mt, s⟩ config =
      ⟨q, some ⟨mt.fields ++
        [ buildField (buildName n) (buildNamedType ⟨mot, false⟩)
            (buildRelationshipMutationArguments RelationshipMutation.CREATE ft tt pofs ot)
            (buildRelationshipMutationDirectives RelationshipMutation.CREATE rn ft tt pofs
              config) ]⟩,
        s⟩ := by
  simp [buildRelationshipMutationField]

theorem buildRelationshipMutationField_remove (n rn ft tt : String)
    (pofs : List FieldDefinition) (mot ot : String)
    (q s : Option OperationRootType) (mt : OperationRootType) (config : Config) :
    buildRelationshipMutationField RelationshipMutation.DELETE n rn ft tt pofs mot ot
        ⟨q, some mt, s⟩ config =
      ⟨q, some ⟨mt.fields ++
        [ buildField (buildName n) (buildNamedType ⟨mot, false⟩)
            (buildRelationshipMutationArguments RelationshipMutation.DELETE ft tt pofs ot)
            (buildRelationshipMutationDirectives RelationshipMutation.DELETE rn ft tt pofs
              config) ]⟩,
        s⟩ := by
  simp [buildRelationshipMutationField]

/-- A fresh, applicable invocation of the orchestrator on a schema with a
Mutation root: both actions pass the idempotence guard, so the Mutation field
list gains the Add field then the Remove field, and the generated-type map is
threaded through the per-action type synthesis in the same order. -/
theorem augmentRelationshipMutationAPI_run (d : RelationshipDescriptor)
    (typeDefinitionMap : TypeDefinitionMap) (generatedTypeMap : GeneratedTypeMap)
    (q s : Option OperationRootType) (mt : OperationRootType) (config : Config)
    (nA nR : String)
    (hs : config.shouldAugmentRelationship "mutation" d.fromType d.toType = true)
    (hA : buildRelationshipMutationName RelationshipMutation.CREATE d.typeName
      d.fieldName = some nA)
    (hR : buildRelationshipMutationName RelationshipMutation.DELETE d.typeName
      d.fieldName = some nR)
    (h0A : getFieldDefinition mt.fields nA = none)
    (h0R : getFieldDefinition mt.fields nR = none)
    (hne : nA ≠ nR) :
    augmentRelationshipMutationAPI d typeDefinitionMap generatedTypeMap
        ⟨q, some mt, s⟩ config =
      some (typeDefinitionMap,
        buildRelationshipMutationOutputType RelationshipMutation.DELETE
          ("_" ++ nR ++ "Payload") d.propertyOutputFields d.relationshipName
          d.fromType d.toType
          (buildRelationshipMutationPropertyInputType RelationshipMutation.DELETE
            d.outputType d.propertyInputValues
            (buildRelationshipMutationOutputType RelationshipMutation.CREATE
              ("_" ++ nA ++ "Payload") d.propertyOutputFields d.relationshipName
              d.fromType d.toType
              (buildRelationshipMutationPropertyInputType RelationshipMutation.CREATE
                d.outputType d.propertyInputValues generatedTypeMap))),
        ⟨q, some ⟨mt.fields ++
          [ buildField (buildName nA) (buildNamedType ⟨"_" ++ nA ++ "Payload", false⟩)
              (buildRelationshipMutationArguments RelationshipMutation.CREATE
                d.fromType d.toType d.propertyOutputFields d.outputType)
              (buildRelationshipMutationDirectives RelationshipMutation.CREATE
                d.relationshipName d.fromType d.toType d.propertyOutputFields config),
            buildField (buildName nR) (buildNamedType ⟨"_" ++ nR ++ "Payload", false⟩)
              (buildRelationshipMutationArguments RelationshipMutation.DELETE
                d.fromType d.toType d.propertyOutputFields d.outputType)
              (buildRelationshipMutationDirectives RelationshipMutation.DELETE
                d.relationshipName d.fromType d.toType d.propertyOutputFields
                config) ]⟩, s⟩) := by
  have hstep1 := relationshipMutationStep_fresh d config ⟨q, some mt, s⟩ generatedTypeMap
    RelationshipMutation.CREATE nA hA (by simpa [mutationFields] using h0A)
  have hAPI1 : buildRelationshipMutationAPI RelationshipMutation.CREATE nA
      d.relationshipName d.fromType d.toType d.propertyInputValues
      d.propertyOutputFields d.outputType generatedTypeMap ⟨q, some mt, s⟩ config =
      (⟨q, some ⟨mt.fields ++
        [ buildField (buildName nA) (buildNamedType ⟨"_" ++ nA ++ "Payload", false⟩)
            (buildRelationshipMutationArguments RelationshipMutation.CREATE
              d.fromType d.toType d.propertyOutputFields d.outputType)
            (buildRelationshipMutationDirectives RelationshipMutation.CREATE
              d.relationshipName d.fromType d.toType d.propertyOutputFields config) ]⟩,
        s⟩,
       buildRelationshipMutationOutputType RelationshipMutation.CREATE
         ("_" ++ nA ++ "Payload") d.propertyOutputFields d.relationshipName
         d.fromType d.toType
         (buildRelationshipMutationPropertyInputType RelationshipMutation.CREATE
           d.outputType d.propertyInputValues generatedTypeMap)) := by
    simp [buildRelationshipMutationAPI, buildRelationshipMutationField_add]
  have hg2 : getFieldDefinition
      (mt.fields ++
        [ buildField (buildName nA) (buildNamedType ⟨"_" ++ nA ++ "Payload", false⟩)
            (buildRelationshipMutationArguments RelationshipMutation.CREATE
              d.fromType d.toType d.propertyOutputFields d.outputType)
            (buildRelationshipMutationDirectives RelationshipMutation.CREATE
              d.relationshipName d.fromType d.toType d.propertyOutputFields config) ])
      nR = none := by
    rw [getFieldDefinition_append, h0R]
    rw [getFieldDefinition_singleton_ne _ _ (by simpa [buildField, buildName] using hne)]
    rfl
  have hstep2 := relationshipMutationStep_fresh d config
    ⟨q, some ⟨mt.fields ++
      [ buildField (buildName nA) (buildNamedType ⟨"_" ++ nA ++ "Payload", false⟩)
          (buildRelationshipMutationArguments RelationshipMutation.CREATE
            d.fromType d.toType d.propertyOutputFields d.outputType)
          (buildRelationshipMutationDirectives RelationshipMutation.CREATE
            d.relationshipName d.fromType d.toType d.propertyOutputFields config) ]⟩, s⟩
    (buildRelationshipMutationOutputType RelationshipMutation.CREATE
      ("_" ++ nA ++ "Payload") d.propertyOutputFields d.relationshipName
      d.fromType d.toType
      (buildRelationshipMutationPropertyInputType RelationshipMutation.CREATE
        d.outputType d.propertyInputValues generatedTypeMap))
    RelationshipMutation.DELETE nR hR (by simpa [mutationFields] using hg2)
  have hAPI2 : buildRelationshipMutationAPI RelationshipMutation.DELETE nR
      d.relationshipName d.fromType d.toType d.propertyInputValues
      d.propertyOutputFields d.outputType
      (buildRelationshipMutationOutputType RelationshipMutation.CREATE
        ("_" ++ nA ++ "Payload") d.propertyOutputFields d.relationshipName
        d.fromType d.toType
        (buildRelationshipMutationPropertyInputType RelationshipMutation.CREATE
          d.outputType d.propertyInputValues generatedTypeMap))
      ⟨q, some ⟨mt.fields ++
        [ buildField (buildName nA) (buildNamedType ⟨"_" ++ nA ++ "Payload", false⟩)
            (buildRelationshipMutationArguments RelationshipMutation.CREATE
              d.fromType d.toType d.propertyOutputFields d.outputType)
            (buildRelationshipMutationDirectives RelationshipMutation.CREATE
              d.relationshipName d.fromType d.toType d.propertyOutputFields config) ]⟩,
        s⟩ config =
      (⟨q, some ⟨(mt.fields ++
        [ buildField (buildName nA) (buildNamedType ⟨"_" ++ nA ++ "Payload", false⟩)
            (buildRelationshipMutationArguments RelationshipMutation.CREATE
              d.fromType d.toType d.propertyOutputFields d.outputType)
            (buildRelationshipMutationDirectives RelationshipMutation.CREATE
              d.relationshipName d.fromType d.toType d.propertyOutputFields config) ]) ++
        [ buildField (buildName nR) (buildNamedType ⟨"_" ++ nR ++ "Payload", false⟩)
            (buildRelationshipMutationArguments RelationshipMutation.DELETE
              d.fromType d.toType d.propertyOutputFields d.outputType)
            (buildRelationshipMutationDirectives RelationshipMutation.DELETE
              d.relationshipName d.fromType d.toType d.propertyOutputFields config) ]⟩,
        s⟩,
       buildRelationshipMutationOutputType RelationshipMutation.DELETE
         ("_" ++ nR ++ "Payload") d.propertyOutputFields d.relationshipName
         d.fromType d.toType
         (buildRelationshipMutationPropertyInputType RelationshipMutation.DELETE
           d.outputType d.propertyInputValues
           (buildRelationshipMutationOutputType RelationshipMutation.CREATE
             ("_" ++ nA ++ "Payload") d.propertyOutputFields d.relationshipName
             d.fromType d.toType
             (buildRelationshipMutationPropertyInputType RelationshipMutation.CREATE
               d.outputType d.propertyInputValues generatedTypeMap)))) := by
    simp [buildRelationshipMutationAPI, buildRelationshipMutationField_remove]
  simp [augmentRelationshipMutationAPI, shouldAugmentRelationshipField, hs,
    relationshipMutationValues, List.foldlM, hstep1, hAPI1, hstep2, hAPI2]

/-- An applicable invocation in which both computed mutation names already
name fields of the Mutation field list: the idempotence guard skips both
actions and all three registries come back unchanged. -/
theorem augmentRelationshipMutationAPI_skip (d : RelationshipDescriptor)
    (typeDefinitionMap : TypeDefinitionMap) (generatedTypeMap : GeneratedTypeMap)
    (q s : Option OperationRootType) (mt : OperationRootType) (config : Config)
    (nA nR : String)
    (hs : config.shouldAugmentRelationship "mutation" d.fromType d.toType = true)
    (hA : buildRelationshipMutationName RelationshipMutation.CREATE d.typeName
      d.fieldName = some nA)
    (hR : buildRelationshipMutationName RelationshipMutation.DELETE d.typeName
      d.fieldName = some nR)
    (hfA : (getFieldDefinition mt.fields nA).isSome = true)
    (hfR : (getFieldDefinition mt.fields nR).isSome = true) :
    augmentRelationshipMutationAPI d typeDefinitionMap generatedTypeMap
        ⟨q, some mt, s⟩ config =
      some (typeDefinitionMap, generatedTypeMap, ⟨q, some mt, s⟩) := by
  have hstep1 := relationshipMutationStep_skip d config ⟨q, some mt, s⟩ generatedTypeMap
    RelationshipMutation.CREATE nA hA (by simpa [mutationFields] using hfA)
  have hstep2 := relationshipMutationStep_skip d config ⟨q, some mt, s⟩ generatedTypeMap
    RelationshipMutation.DELETE nR hR (by simpa [mutationFields] using hfR)
  simp [augmentRelationshipMutationAPI, shouldAugmentRelationshipField, hs,
    relationshipMutationValues, List.foldlM, hstep1, hstep2]

/-- The Add-prefixed and Remove-prefixed mutation names built from one
descriptor differ: their lengths differ by the two action labels. -/
theorem mutationName_create_ne_delete (t f nA nR : String)
    (hA : buildRelationshipMutationName RelationshipMutation.CREATE t f = some nA)
    (hR : buildRelationshipMutationName RelationshipMutation.DELETE t f = some nR) :
    nA ≠ nR := by
  rcases hdata : f.data with _ | ⟨c, cs⟩ <;>
    simp [buildRelationshipMutationName, hdata] at hA hR
  intro heq
  rw [← hA, ← hR] at heq
  have hlen := congrArg String.length heq
  have h3 : (RelationshipMutation.CREATE : String).length = 3 := rfl
  have h6 : (RelationshipMutation.DELETE : String).length = 6 := rfl
  simp [String.length_append, h3, h6] at hlen

/-- C1: invoking the orchestrator a second time with the identical descriptor
and the registries produced by the first call changes nothing — the second
call returns the same generated-type map and operation-type map — and after
the two calls the Mutation field list holds exactly one field named by the
CREATE (Add) action and exactly one named by the DELETE (Remove) action,
because the guard skips any action whose computed field name already exists. -/
theorem augmentRelationshipMutationAPI_idempotent (d : RelationshipDescriptor)
    (typeDefinitionMap : TypeDefinitionMap) (generatedTypeMap : GeneratedTypeMap)
    (q s : Option OperationRootType) (mt : OperationRootType) (config : Config)
    (nA nR : String)
    (hs : config.shouldAugmentRelationship "mutation" d.fromType d.toType = true)
    (hA : buildRelationshipMutationName RelationshipMutation.CREATE d.typeName
      d.fieldName = some nA)
    (hR : buildRelationshipMutationName RelationshipMutation.DELETE d.typeName
      d.fieldName = some nR)
    (h0A : getFieldDefinition mt.fields nA = none)
    (h0R : getFieldDefinition mt.fields nR = none) :
    ∃ (generatedTypeMap' : GeneratedTypeMap) (operationTypeMap' : OperationTypeMap),
      augmentRelationshipMutationAPI d typeDefinitionMap generatedTypeMap
          ⟨q, some mt, s⟩ config =
        some (typeDefinitionMap, generatedTypeMap', operationTypeMap') ∧
      augmentRelationshipMutationAPI d typeDefinitionMap generatedTypeMap'
          operationTypeMap' config =
        some (typeDefinitionMap, generatedTypeMap', operationTypeMap') ∧
      (mutationFields operationTypeMap').countP (fun f => f.name.value == nA) = 1 ∧
      (mutationFields operationTypeMap').countP (fun f => f.name.value == nR) = 1 := by
  have hne := mutationName_create_ne_delete d.typeName d.fieldName nA nR hA hR
  have hzA : mt.fields.countP (fun f => f.name.value == nA) = 0 :=
    List.countP_eq_zero.mpr (List.find?_eq_none.mp (by simpa [getFieldDefinition] using h0A))
  have hzR : mt.fields.countP (fun f => f.name.value == nR) = 0 :=
    List.countP_eq_zero.mpr (List.find?_eq_none.mp (by simpa [getFieldDefinition] using h0R))
  refine ⟨_, _,
    augmentRelationshipMutationAPI_run d typeDefinitionMap generatedTypeMap q s mt
      config nA nR hs hA hR h0A h0R hne, ?_, ?_, ?_⟩
  · apply augmentRelationshipMutationAPI_skip d _ _ q s _ config nA nR hs hA hR
    · simp [getFieldDefinition_append, h0A, getFieldDefinition, buildField, buildName]
    · simp [getFieldDefinition_append, h0R, getFieldDefinition, buildField, buildName,
        Ne.symm hne]
  · simp [mutationFields, List.countP_append, hzA, List.countP_cons, buildField,
      buildName, Ne.symm hne]
  · simp [mutationFields, List.countP_append, hzR, List.countP_cons, buildField,
      buildName, hne]

/-- One loop iteration only ever touches the Mutation entry of the
operation-type map: the Query and Subscription entries pass through. -/
theorem relationshipMutationStep_frame (d : RelationshipDescriptor) (config : Config)
    (maps maps' : OperationTypeMap × GeneratedTypeMap) (a : String)
    (h : relationshipMutationStep d config maps a = some maps') :
    maps'.1.query = maps.1.query ∧ maps'.1.subscription = maps.1.subscription := by
  unfold relationshipMutationStep at h
  cases hn : buildRelationshipMutationName a d.typeName d.fieldName with
  | none => rw [hn] at h; cases h
  | some n =>
    rw [hn] at h
    have h' : (if (getFieldDefinition (mutationFields maps.1) n).isSome = true
        then some maps
        else some (buildRelationshipMutationAPI a n d.relationshipName d.fromType
          d.toType d.propertyInputValues d.propertyOutputFields d.outputType
          maps.2 maps.1 config)) = some maps' := h
    by_cases hg : (getFieldDefinition (mutationFields maps.1) n).isSome = true
    · rw [if_pos hg] at h'
      cases h'
      exact ⟨rfl, rfl⟩
    · rw [if_neg hg] at h'
      cases h'
      unfold buildRelationshipMutationAPI buildRelationshipMutationField
      split
      · exact ⟨rfl, rfl⟩
      · exact ⟨rfl, rfl⟩

/-- C8: with no Mutation entry, or with the applicability predicate false, the
orchestrator performs no synthesis and returns the registries unchanged; and
every invocation returns the type-definition map unchanged in the first slot
and leaves the Query and Subscription entries of the operation-type map
untouched. -/
theorem augmentRelationshipMutationAPI_frame (d : RelationshipDescriptor)
    (typeDefinitionMap : TypeDefinitionMap) (generatedTypeMap : GeneratedTypeMap)
    (operationTypeMap : OperationTypeMap) (config : Config) :
    (operationTypeMap.mutation = none →
      augmentRelationshipMutationAPI d typeDefinitionMap generatedTypeMap
          operationTypeMap config =
        some (typeDefinitionMap, generatedTypeMap, operationTypeMap)) ∧
    (config.shouldAugmentRelationship "mutation" d.fromType d.toType = false →
      augmentRelationshipMutationAPI d typeDefinitionMap generatedTypeMap
          operationTypeMap config =
        some (typeDefinitionMap, generatedTypeMap, operationTypeMap)) ∧
    (∀ (t : TypeDefinitionMap) (g : GeneratedTypeMap) (o : OperationTypeMap),
      augmentRelationshipMutationAPI d typeDefinitionMap generatedTypeMap
          operationTypeMap config = some (t, g, o) →
      t = typeDefinitionMap ∧ o.query = operationTypeMap.query ∧
        o.subscription = operationTypeMap.subscription) := by
  refine ⟨?_, ?_, ?_⟩
  · intro h
    simp [augmentRelationshipMutationAPI, h]
  · intro h
    simp [augmentRelationshipMutationAPI, shouldAugmentRelationshipField, h]
  · intro t g o h
    unfold augmentRelationshipMutationAPI at h
    by_cases hc : (operationTypeMap.mutation.isSome
        && shouldAugmentRelationshipField config "mutation" d.fromType d.toType) = true
    · rw [if_pos hc] at h
      cases hf : relationshipMutationValues.foldlM
          (relationshipMutationStep d config) (operationTypeMap, generatedTypeMap) with
      | none => rw [hf] at h; cases h
      | some p =>
        rw [hf] at h
        obtain ⟨o', g'⟩ := p
        simp only [Option.some.injEq, Prod.mk.injEq] at h
        obtain ⟨h1, h2, h3⟩ := h
        simp only [relationshipMutationValues, List.foldlM] at hf
        cases h4 : relationshipMutationStep d config
            (operationTypeMap, generatedTypeMap) RelationshipMutation.CREATE with
        | none => rw [h4] at hf; cases hf
        | some m1 =>
          rw [h4] at hf
          simp only [Option.bind_eq_bind, Option.some_bind] at hf
          cases h5 : relationshipMutationStep d config m1 RelationshipMutation.DELETE with
          | none => rw [h5] at hf; cases hf
          | some m2 =>
            rw [h5] at hf
            simp only [Option.bind_eq_bind, Option.some_bind, Option.pure_def,
              Option.some.injEq] at hf
            subst hf
            have f1 := relationshipMutationStep_frame d config _ _ _ h4
            have f2 := relationshipMutationStep_frame d config _ _ _ h5
            refine ⟨h1.symm, ?_, ?_⟩
            · rw [← h3]
              exact f2.1.trans f1.1
            · rw [← h3]
              exact f2.2.trans f1.2
    · rw [if_neg hc] at h
      simp only [Option.some.injEq, Prod.mk.injEq] at h
      obtain ⟨h1, h2, h3⟩ := h
      exact ⟨h1.symm, by rw [← h3], by rw [← h3]⟩

/-- C9: a descriptor with an empty fieldName (with a Mutation root present and
the applicability predicate true) fails at mutation-name construction — the
first-character capitalization has no character to act on — and the failure
propagates uncaught out of the whole pass. -/
theorem augmentRelationshipMutationAPI_empty_fieldName (d : RelationshipDescriptor)
    (typeDefinitionMap : TypeDefinitionMap) (generatedTypeMap : GeneratedTypeMap)
    (q s : Option OperationRootType) (mt : OperationRootType) (config : Config)
    (hf : d.fieldName = "")
    (hs : config.shouldAugmentRelationship "mutation" d.fromType d.toType = true) :
    buildRelationshipMutationName RelationshipMutation.CREATE d.typeName
      d.fieldName = none ∧
    augmentRelationshipMutationAPI d typeDefinitionMap generatedTypeMap
      ⟨q, some mt, s⟩ config = none := by
  have hname : ∀ (a tn : String), buildRelationshipMutationName a tn d.fieldName = none := by
    intro a tn
    simp [buildRelationshipMutationName, hf, show ("" : String).data = [] from rfl]
  refine ⟨hname _ _, ?_⟩
  have hstep : relationshipMutationStep d config
      (⟨q, some mt, s⟩, generatedTypeMap) RelationshipMutation.CREATE = none := by
    simp [relationshipMutationStep, hname]
  simp [augmentRelationshipMutationAPI, shouldAugmentRelationshipField, hs,
    relationshipMutationValues, List.foldlM, hstep]

/-- Looking up any other key is unaffected by the payload-type synthesis. -/
theorem getEntry_buildRelationshipMutationOutputType_ne (a mot : String)
    (pofs : List FieldDefinition) (rn ft tt : String) (g : GeneratedTypeMap)
    (key : String) (h : mot ≠ key) :
    getEntry (buildRelationshipMutationOutputType a mot pofs rn ft tt g) key =
      getEntry g key := by
  unfold buildRelationshipMutationOutputType
  split
  · rw [getEntry_setEntry_ne _ _ _ _ h]
  · rfl

/-- C10: the data argument and the property-input type are gated on different
descriptor lists.  For a descriptor with property output fields but no
property input values, the CREATE field still carries the required data
argument naming the non-null _<outputType>Input type, while the pass writes
no _<outputType>Input entry into the generated-type map: the lookup of that
key after the call equals the lookup before it. -/
theorem augmentRelationshipMutationAPI_data_argument_gating (d : RelationshipDescriptor)
    (typeDefinitionMap : TypeDefinitionMap) (generatedTypeMap : GeneratedTypeMap)
    (q s : Option OperationRootType) (mt : OperationRootType) (config : Config)
    (nA nR : String) (pof : FieldDefinition) (pofs : List FieldDefinition)
    (hs : config.shouldAugmentRelationship "mutation" d.fromType d.toType = true)
    (hA : buildRelationshipMutationName RelationshipMutation.CREATE d.typeName
      d.fieldName = some nA)
    (hR : buildRelationshipMutationName RelationshipMutation.DELETE d.typeName
      d.fieldName = some nR)
    (h0A : getFieldDefinition mt.fields nA = none)
    (h0R : getFieldDefinition mt.fields nR = none)
    (hpofs : d.propertyOutputFields = pof :: pofs)
    (hpivs : d.propertyInputValues = []) :
    buildRelationshipPropertyInputArgument d.outputType =
      buildInputValue (buildName "data")
        (buildNamedType ⟨"_" ++ d.outputType ++ "Input", true⟩) ∧
    ∃ (generatedTypeMap' : GeneratedTypeMap) (operationTypeMap' : OperationTypeMap),
      augmentRelationshipMutationAPI d typeDefinitionMap generatedTypeMap
          ⟨q, some mt, s⟩ config =
        some (typeDefinitionMap, generatedTypeMap', operationTypeMap') ∧
      mutationFields operationTypeMap' = mt.fields ++
        [ buildField (buildName nA) (buildNamedType ⟨"_" ++ nA ++ "Payload", false⟩)
            (buildNodeSelectionArguments d.fromType d.toType ++
              [buildRelationshipPropertyInputArgument d.outputType])
            (buildRelationshipMutationDirectives RelationshipMutation.CREATE
              d.relationshipName d.fromType d.toType d.propertyOutputFields config),
          buildField (buildName nR) (buildNamedType ⟨"_" ++ nR ++ "Payload", false⟩)
            (buildRelationshipMutationArguments RelationshipMutation.DELETE
              d.fromType d.toType d.propertyOutputFields d.outputType)
            (buildRelationshipMutationDirectives RelationshipMutation.DELETE
              d.relationshipName d.fromType d.toType d.propertyOutputFields config) ] ∧
      getEntry generatedTypeMap' ("_" ++ d.outputType ++ "Input") =
        getEntry generatedTypeMap ("_" ++ d.outputType ++ "Input") := by
  have hne := mutationName_create_ne_delete d.typeName d.fieldName nA nR hA hR
  refine ⟨rfl, _, _,
    augmentRelationshipMutationAPI_run d typeDefinitionMap generatedTypeMap q s mt
      config nA nR hs hA hR h0A h0R hne, ?_, ?_⟩
  · simp [mutationFields, buildRelationshipMutationArguments, hpofs]
  · have e1 : buildRelationshipMutationPropertyInputType RelationshipMutation.CREATE
        d.outputType d.propertyInputValues generatedTypeMap = generatedTypeMap := by
      simp [buildRelationshipMutationPropertyInputType, hpivs]
    have e2 : ∀ g : GeneratedTypeMap,
        buildRelationshipMutationPropertyInputType RelationshipMutation.DELETE
          d.outputType d.propertyInputValues g = g := fun g => rfl
    rw [e1, e2]
    rw [getEntry_buildRelationshipMutationOutputType_ne _ _ _ _ _ _ _ _
      (string_append_payload_ne_input nR d.outputType)]
    rw [getEntry_buildRelationshipMutationOutputType_ne _ _ _ _ _ _ _ _
      (string_append_payload_ne_input nA d.outputType)]

/-
Concrete instances exercising the theorems with hypotheses.
-/

/-- The end-to-end scenario descriptor: Person.knows, a KNOWS relationship of
type Knows carrying one property since: Int. -/
def exampleDescriptor : RelationshipDescriptor :=
  { typeName := "Person", fieldName := "knows", outputType := "Knows",
    fromType := "Person", toType := "Person", relationshipName := "KNOWS",
    propertyInputValues := [⟨"since", ⟨"Int", false⟩, []⟩],
    propertyOutputFields := [⟨⟨"since"⟩, ⟨"Int", false⟩, [], []⟩] }

/-- A configuration with authorization disabled and applicability true. -/
def exampleConfig : Config := ⟨false, fun _ _ _ => true⟩

/-- A configuration whose applicability predicate is always false. -/
def exampleSkipConfig : Config := ⟨false, fun _ _ _ => false⟩

/-- The scenario descriptor with an empty field name. -/
def emptyFieldDescriptor : RelationshipDescriptor :=
  { exampleDescriptor with fieldName := "" }

/-- The scenario descriptor with property output fields but no property input
values. -/
def noInputDescriptor : RelationshipDescriptor :=
  { exampleDescriptor with propertyInputValues := [] }

/-- Witness for C1 at the scenario descriptor on an empty Mutation root. -/
theorem augmentRelationshipMutationAPI_idempotent_witness :
    ∃ (generatedTypeMap' : GeneratedTypeMap) (operationTypeMap' : OperationTypeMap),
      augmentRelationshipMutationAPI exampleDescriptor [] []
          ⟨none, some ⟨[]⟩, none⟩ exampleConfig =
        some ([], generatedTypeMap', operationTypeMap') ∧
      augmentRelationshipMutationAPI exampleDescriptor [] generatedTypeMap'
          operationTypeMap' exampleConfig =
        some ([], generatedTypeMap', operationTypeMap') ∧
      (mutationFields operationTypeMap').countP
        (fun f => f.name.value == "AddPersonKnows") = 1 ∧
      (mutationFields operationTypeMap').countP
        (fun f => f.name.value == "RemovePersonKnows") = 1 :=
  augmentRelationshipMutationAPI_idempotent exampleDescriptor [] [] none none ⟨[]⟩
    exampleConfig "AddPersonKnows" "RemovePersonKnows" rfl (by decide) (by decide)
    rfl rfl

/-- Witness for C8: the skip paths and the frame condition at concrete
registries. -/
theorem augmentRelationshipMutationAPI_frame_witness :
    augmentRelationshipMutationAPI exampleDescriptor [] [] ⟨none, none, none⟩
        exampleConfig =
      some ([], [], ⟨none, none, none⟩) ∧
    augmentRelationshipMutationAPI exampleDescriptor [] [] ⟨none, none, none⟩
        exampleSkipConfig =
      some ([], [], ⟨none, none, none⟩) ∧
    (([] : TypeDefinitionMap) = [] ∧
      (OperationTypeMap.mk none none none).query =
        (OperationTypeMap.mk none none none).query ∧
      (OperationTypeMap.mk none none none).subscription =
        (OperationTypeMap.mk none none none).subscription) :=
  ⟨(augmentRelationshipMutationAPI_frame exampleDescriptor [] [] ⟨none, none, none⟩
      exampleConfig).1 rfl,
   (augmentRelationshipMutationAPI_frame exampleDescriptor [] [] ⟨none, none, none⟩
      exampleSkipConfig).2.1 rfl,
   (augmentRelationshipMutationAPI_frame exampleDescriptor [] [] ⟨none, none, none⟩
      exampleConfig).2.2 [] [] ⟨none, none, none⟩
     ((augmentRelationshipMutationAPI_frame exampleDescriptor [] [] ⟨none, none, none⟩
        exampleConfig).1 rfl)⟩

/-- Witness for C9 at the scenario descriptor with an empty field name. -/
theorem augmentRelationshipMutationAPI_empty_fieldName_witness :
    buildRelationshipMutationName RelationshipMutation.CREATE
      emptyFieldDescriptor.typeName emptyFieldDescriptor.fieldName = none ∧
    augmentRelationshipMutationAPI emptyFieldDescriptor [] []
      ⟨none, some ⟨[]⟩, none⟩ exampleConfig = none :=
  augmentRelationshipMutationAPI_empty_fieldName emptyFieldDescriptor [] [] none none
    ⟨[]⟩ exampleConfig rfl rfl

/-- Witness for C10 at the scenario descriptor stripped of property input
values. -/
theorem augmentRelationshipMutationAPI_data_argument_gating_witness :
    buildRelationshipPropertyInputArgument noInputDescriptor.outputType =
      buildInputValue (buildName "data")
        (buildNamedType ⟨"_" ++ noInputDescriptor.outputType ++ "Input", true⟩) ∧
    ∃ (generatedTypeMap' : GeneratedTypeMap) (operationTypeMap' : OperationTypeMap),
      augmentRelationshipMutationAPI noInputDescriptor [] []
          ⟨none, some ⟨[]⟩, none⟩ exampleConfig =
        some ([], generatedTypeMap', operationTypeMap') ∧
      mutationFields operationTypeMap' = ([] : List FieldDefinition) ++
        [ buildField (buildName "AddPersonKnows")
            (buildNamedType ⟨"_" ++ "AddPersonKnows" ++ "Payload", false⟩)
            (buildNodeSelectionArguments noInputDescriptor.fromType
              noInputDescriptor.toType ++
              [buildRelationshipPropertyInputArgument noInputDescriptor.outputType])
            (buildRelationshipMutationDirectives RelationshipMutation.CREATE
              noInputDescriptor.relationshipName noInputDescriptor.fromType
              noInputDescriptor.toType noInputDescriptor.propertyOutputFields
              exampleConfig),
          buildField (buildName "RemovePersonKnows")
            (buildNamedType ⟨"_" ++ "RemovePersonKnows" ++ "Payload", false⟩)
            (buildRelationshipMutationArguments RelationshipMutation.DELETE
              noInputDescriptor.fromType noInputDescriptor.toType
              noInputDescriptor.propertyOutputFields noInputDescriptor.outputType)
            (buildRelationshipMutationDirectives RelationshipMutation.DELETE
              noInputDescriptor.relationshipName noInputDescriptor.fromType
              noInputDescriptor.toType noInputDescriptor.propertyOutputFields
              exampleConfig) ] ∧
      getEntry generatedTypeMap' ("_" ++ noInputDescriptor.outputType ++ "Input") =
        getEntry ([] : GeneratedTypeMap)
          ("_" ++ noInputDescriptor.outputType ++ "Input") :=
  augmentRelationshipMutationAPI_data_argument_gating noInputDescriptor [] [] none
    none ⟨[]⟩ exampleConfig "AddPersonKnows" "RemovePersonKnows"
    ⟨⟨"since"⟩, ⟨"Int", false⟩, [], []⟩ [] rfl (by decide) (by decide) rfl rfl rfl rfl
